import Mathlib

/-!
Verification of the paperflow LLM-classifier core (src/paperflow/classifier.py,
src/paperflow/models.py, src/paperflow/config.py) against its design
specification.  Python code is shallowly embedded: strings are `String`/
`List Char`, floats are `ℚ` (the bounds checked are 0 and 1, exact in both
representations), pydantic validation is a total function into `Option`,
and the retry loop's sleeps are returned as an explicit delay trace.
-/

/-! ## Data model (src/paperflow/models.py, src/paperflow/config.py) -/

/-- Embeds `models.Classification`: the classification record. -/
structure Classification where
  collections : List String
  tags : List String
  confidence : ℚ
  reasoning : String
deriving Repr, DecidableEq

/-- Embeds `config.CollectionDef`: a catalog entry. -/
structure CollectionDef where
  name : String
  description : String
  keywords : List String
deriving Repr, DecidableEq

/-- A candidate payload for `Classification.model_validate`: each field is
`none` when absent from the parsed JSON object. -/
structure ClassificationPayload where
  collections : Option (List String)
  tags : Option (List String)
  confidence : Option ℚ
  reasoning : Option String
deriving Repr, DecidableEq

/-- Embeds pydantic validation of `models.Classification`:
`collections` is required with `min_length=1`, `tags` defaults to `[]`,
`confidence` is required with `ge=0.0, le=1.0`, `reasoning` is required. -/
def Classification.model_validate (p : ClassificationPayload) : Option Classification :=
  match p.collections, p.confidence, p.reasoning with
  | some cs, some conf, some r =>
      if 1 ≤ cs.length ∧ 0 ≤ conf ∧ conf ≤ 1 then
        some ⟨cs, p.tags.getD [], conf, r⟩
      else none
  | _, _, _ => none

/-! ## Reconciliation (classifier.py, `Classifier.classify`, lines 77-96) -/

/-- Boolean membership test on string lists, embedding Python's
`c in valid_collection_names`. -/
def memB (x : String) : List String → Bool
  | [] => false
  | y :: ys => x == y || memB x ys

/-- Boolean prefix test on character lists. -/
def listStartsWith : List Char → List Char → Bool
  | [], _ => true
  | _ :: _, [] => false
  | p :: ps, c :: cs => p == c && listStartsWith ps cs

/-- Boolean substring (contiguous) test on character lists, embedding
Python's `needle in haystack`. -/
def containsSub (needle : List Char) : List Char → Bool
  | [] => listStartsWith needle []
  | c :: cs => listStartsWith needle (c :: cs) || containsSub needle cs

/-- Embeds `"review" in c.name.lower()` from classifier.py line 86. -/
def containsReview (s : String) : Bool :=
  containsSub "review".data s.toLower.data

/-- Embeds the reconciliation step of `Classifier.classify`
(classifier.py lines 77-96): filter the model-returned collections down to
catalog names; if none survive, fall back to the first catalog entry whose
lowercased name contains "review", else the last catalog entry, else the
literal "Unknown". -/
def classify_reconcile (collections : List CollectionDef)
    (classification : Classification) : Classification :=
  let valid_collection_names := collections.map CollectionDef.name
  let validated := classification.collections.filter
    (fun c => memB c valid_collection_names)
  let validated :=
    if validated.isEmpty then
      let review_later :=
        match collections.find? (fun c => containsReview c.name) with
        | some c => c.name
        | none =>
          match collections.getLast? with
          | some c => c.name
          | none => "Unknown"
      [review_later]
    else validated
  { collections := validated
    tags := classification.tags
    confidence := classification.confidence
    reasoning := classification.reasoning }

/-! ## Helper lemmas -/

theorem memB_iff (x : String) (l : List String) : memB x l = true ↔ x ∈ l := by
  induction l with
  | nil => simp [memB]
  | cons y ys ih =>
    simp [memB, ih, Bool.or_eq_true, beq_iff_eq, List.mem_cons]

theorem findq_eq_filter_headq (p : α → Bool) (l : List α) :
    l.find? p = (l.filter p).head? := by
  induction l with
  | nil => rfl
  | cons a t ih =>
    rw [List.find?_cons, List.filter_cons]
    cases hpa : p a with
    | true => simp
    | false => simpa using ih

theorem getLastq_mem : ∀ {l : List α} {a : α}, l.getLast? = some a → a ∈ l := by
  intro l
  induction l with
  | nil => intro a h; rw [List.getLast?_nil] at h; cases h
  | cons x t ih =>
    intro a h
    cases t with
    | nil =>
      rw [List.getLast?_singleton] at h
      cases h
      exact List.mem_singleton_self x
    | cons y u =>
      rw [List.getLast?_cons_cons] at h
      exact List.mem_cons_of_mem _ (ih h)

/-! ## Claim theorems: reconciliation and validation -/

/-- Claim C1: for every classify result and catalog, reconciliation filters
the model-returned collections down to catalog names by exact case-sensitive
match; when the filtered list is empty it returns exactly a single-element
list holding, in order of preference, the first catalog entry (in catalog
order) whose name contains the case-insensitive substring "review", else the
last catalog entry, else (empty catalog) the literal "Unknown". -/
theorem c1_reconcile_filter_and_fallback (catalog : List CollectionDef)
    (cls : Classification) :
    (classify_reconcile catalog cls).collections =
      if (cls.collections.filter
            (fun c => memB c (catalog.map CollectionDef.name))).isEmpty then
        [match (catalog.filter (fun d => containsReview d.name)).head? with
         | some d => d.name
         | none =>
           match catalog.getLast? with
           | some d => d.name
           | none => "Unknown"]
      else
        cls.collections.filter (fun c => memB c (catalog.map CollectionDef.name)) := by
  simp only [classify_reconcile, findq_eq_filter_headq]

/-- Claim C2: after reconciliation the collections list is non-empty and
every element is a catalog name, except that with an empty catalog the list
is exactly `["Unknown"]`. -/
theorem c2_collections_invariant (catalog : List CollectionDef)
    (cls : Classification) :
    ((classify_reconcile catalog cls).collections.isEmpty = false) ∧
    (if catalog = [] then (classify_reconcile catalog cls).collections = ["Unknown"]
     else (classify_reconcile catalog cls).collections.all
        (fun c => memB c (catalog.map CollectionDef.name)) = true) := by
  have hfilter_nil : ∀ L : List String, L.filter (fun c => memB c []) = [] := by
    intro L
    induction L with
    | nil => rfl
    | cons a t ih => simp [List.filter_cons, memB, ih]
  simp only [classify_reconcile]
  by_cases hf :
      (cls.collections.filter (fun c => memB c (catalog.map CollectionDef.name))).isEmpty
  · rw [if_pos hf]
    refine ⟨rfl, ?_⟩
    split_ifs with hc
    · subst hc
      rfl
    · cases hfind : catalog.find? (fun c => containsReview c.name) with
      | some d =>
        have hd : d ∈ catalog := List.mem_of_find?_eq_some hfind
        have hmem : d.name ∈ catalog.map CollectionDef.name :=
          List.mem_map_of_mem _ hd
        simp [hfind, (memB_iff _ _).mpr hmem]
      | none =>
        cases hlast : catalog.getLast? with
        | some d =>
          have hd : d ∈ catalog := getLastq_mem hlast
          have hmem : d.name ∈ catalog.map CollectionDef.name :=
            List.mem_map_of_mem _ hd
          simp [hfind, hlast, (memB_iff _ _).mpr hmem]
        | none =>
          exact absurd (List.getLast?_eq_none_iff.mp hlast) hc
  · rw [if_neg hf]
    refine ⟨by simpa using hf, ?_⟩
    split_ifs with hc
    · subst hc
      exact absurd (by simp [hfilter_nil]) hf
    · rw [List.all_eq_true]
      intro c hcmem
      exact (List.mem_filter.mp hcmem).2

/-- Claim C3: reconciliation passes tags, confidence and reasoning through
unmodified, also when the collections list was replaced by a fallback. -/
theorem c3_reconcile_frame (catalog : List CollectionDef) (cls : Classification) :
    (classify_reconcile catalog cls).tags = cls.tags ∧
    (classify_reconcile catalog cls).confidence = cls.confidence ∧
    (classify_reconcile catalog cls).reasoning = cls.reasoning :=
  ⟨rfl, rfl, rfl⟩

/-- Claim C5: validation fails exactly when confidence is below 0 or above 1
or the required collections list is empty; in particular it succeeds at
confidence exactly 0 and exactly 1 when the other fields are valid. -/
theorem c5_confidence_and_length_bounds (cs : List String)
    (tg : Option (List String)) (conf : ℚ) (r : String) :
    Classification.model_validate ⟨some cs, tg, some conf, some r⟩ =
      if cs = [] ∨ conf < 0 ∨ 1 < conf then none
      else some ⟨cs, tg.getD [], conf, r⟩ := by
  show (if 1 ≤ cs.length ∧ 0 ≤ conf ∧ conf ≤ 1 then
      some (⟨cs, tg.getD [], conf, r⟩ : Classification) else none) = _
  split_ifs with hA hB hB'
  · rcases hA with ⟨hlen, h0, h1'⟩
    rcases hB with h | h | h
    · subst h; simp at hlen
    · exact absurd h (not_lt.mpr h0)
    · exact absurd h (not_lt.mpr h1')
  · rfl
  · rfl
  · push_neg at hB'
    exact absurd ⟨List.length_pos.mpr hB'.1, hB'.2.1, hB'.2.2⟩ hA

/-- Claim C10: a payload omitting the tags field entirely validates (other
fields being valid) and yields tags equal to the empty list. -/
theorem c10_tags_optional_defaults_empty (cs : List String) (conf : ℚ)
    (r : String) :
    Classification.model_validate ⟨some cs, none, some conf, some r⟩ =
      if cs = [] ∨ conf < 0 ∨ 1 < conf then none
      else some ⟨cs, [], conf, r⟩ := by
  show (if 1 ≤ cs.length ∧ 0 ≤ conf ∧ conf ≤ 1 then
      some (⟨cs, [], conf, r⟩ : Classification) else none) = _
  split_ifs with hA hB hB'
  · rcases hA with ⟨hlen, h0, h1'⟩
    rcases hB with h | h | h
    · subst h; simp at hlen
    · exact absurd h (not_lt.mpr h0)
    · exact absurd h (not_lt.mpr h1')
  · rfl
  · rfl
  · push_neg at hB'
    exact absurd ⟨List.length_pos.mpr hB'.1, hB'.2.1, hB'.2.2⟩ hA

/-! ## Stage retry loop (classifier.py, `Classifier._call_llm_with_parse`,
lines 251-284).  The per-attempt body (one `_call_llm_once` followed by
`_parse_response`) is abstracted as a function from the attempt number to
an `Except`; the `asyncio.sleep` calls are collected into a delay trace and
the number of body invocations is counted. -/

/-- Result of one stage run: the outcome, the backoff delays slept (in
seconds, in order) and the number of attempts made. -/
structure StageTrace (α : Type) where
  result : Except String α
  delays : List Nat
  attemptsMade : Nat
deriving Repr

/-- Embeds the terminal message of classifier.py line 284,
`f"Failed after {max_retries} attempts: {last_error}"` (Python renders a
`None` last error as the string "None"). -/
def failAfterMsg (maxRetries : Nat) (lastError : Option String) : String :=
  "Failed after " ++ toString maxRetries ++ " attempts: " ++ lastError.getD "None"

/-- Embeds the `for attempt in range(1, max_retries + 1)` loop of
classifier.py lines 271-284.  The fuel argument counts the remaining loop
iterations (initially `maxRetries`); a sleep of `2 ** attempt` seconds is
recorded only when `attempt < max_retries`, exactly as in the source. -/
def stageLoop {α : Type} (body : Nat → Except String α) (maxRetries : Nat) :
    Nat → Nat → Option String → StageTrace α
  | 0, _, lastError => ⟨.error (failAfterMsg maxRetries lastError), [], 0⟩
  | fuel + 1, attempt, _ =>
    match body attempt with
    | .ok r => ⟨.ok r, [], 1⟩
    | .error e =>
      let rest := stageLoop body maxRetries fuel (attempt + 1) (some e)
      ⟨rest.result,
       (if attempt < maxRetries then [2 ^ attempt] else []) ++ rest.delays,
       rest.attemptsMade + 1⟩

/-- Embeds `Classifier._call_llm_with_parse`: run up to `maxRetries`
attempts starting at attempt 1 with no previous error. -/
def call_llm_with_parse {α : Type} (body : Nat → Except String α)
    (maxRetries : Nat) : StageTrace α :=
  stageLoop body maxRetries maxRetries 1 none

/-- Embeds one attempt body: `_call_llm_once` (which may fail with a
gateway `ClassifierError`) followed by `_parse_response` (which may fail
with a parse/validation `ClassifierError`); classifier.py lines 273-274. -/
def stageBody {α : Type} (gateway : Nat → Except String String)
    (parseResp : String → Except String α) (attempt : Nat) : Except String α :=
  match gateway attempt with
  | .error e => .error e
  | .ok raw => parseResp raw

theorem failAfterMsg_three (e : String) :
    failAfterMsg 3 (some e) = "Failed after 3 attempts: " ++ e := rfl

/-- Claim C4: with `max_retries = 3`, a stage whose first two attempts fail
and whose third succeeds returns the parsed result with backoff delays
exactly [2, 4] seconds; this holds both when the failures are gateway
failures (scenario A) and when they are parse/validation failures on a
successful gateway call (scenario B), which therefore share the retry
budget and the `2 ^ attempt` backoff schedule.  A stage whose every
attempt fails (scenario C) errors after exactly 3 attempts with a message
carrying the attempt count and the last underlying cause. -/
theorem c4_stage_retry {α : Type}
    (gwA : Nat → Except String String) (psA : String → Except String α)
    (rawA : String) (rA : α) (eA1 eA2 : String)
    (gwB : Nat → Except String String) (psB : String → Except String α)
    (rb1 rb2 rb3 : String) (rB : α) (eB1 eB2 : String)
    (gwC : Nat → Except String String) (psC : String → Except String α)
    (es : Nat → String)
    (hA1 : gwA 1 = .error eA1) (hA2 : gwA 2 = .error eA2)
    (hA3 : gwA 3 = .ok rawA) (hA4 : psA rawA = .ok rA)
    (hB1 : gwB 1 = .ok rb1) (hB2 : psB rb1 = .error eB1)
    (hB3 : gwB 2 = .ok rb2) (hB4 : psB rb2 = .error eB2)
    (hB5 : gwB 3 = .ok rb3) (hB6 : psB rb3 = .ok rB)
    (hC : ∀ n, gwC n = .error (es n)) :
    call_llm_with_parse (stageBody gwA psA) 3 = ⟨.ok rA, [2, 4], 3⟩ ∧
    call_llm_with_parse (stageBody gwB psB) 3 = ⟨.ok rB, [2, 4], 3⟩ ∧
    call_llm_with_parse (stageBody gwC psC) 3 =
      ⟨.error ("Failed after 3 attempts: " ++ es 3), [2, 4], 3⟩ := by
  refine ⟨?_, ?_, ?_⟩
  · simp [call_llm_with_parse, stageLoop, stageBody, hA1, hA2, hA3, hA4]
  · simp [call_llm_with_parse, stageLoop, stageBody, hB1, hB2, hB3, hB4, hB5, hB6]
  · simp [call_llm_with_parse, stageLoop, stageBody, hC, failAfterMsg_three]

/-- Gateway for the C4 witness, scenario A: fails twice, then succeeds. -/
def c4GatewayA : Nat → Except String String := fun n =>
  if n = 1 then .error "gw fail 1"
  else if n = 2 then .error "gw fail 2"
  else .ok "raw ok"

/-- Parse step for the C4 witness, scenario A. -/
def c4ParseA : String → Except String Nat := fun s =>
  if s = "raw ok" then .ok 7 else .error "parse fail"

/-- Gateway for the C4 witness, scenario B: always succeeds. -/
def c4GatewayB : Nat → Except String String := fun n => .ok (toString n)

/-- Parse step for the C4 witness, scenario B: fails until the third raw
response. -/
def c4ParseB : String → Except String Nat := fun s =>
  if s = "3" then .ok 9 else .error ("bad " ++ s)

/-- Gateway for the C4 witness, scenario C: always fails. -/
def c4GatewayC : Nat → Except String String := fun n =>
  .error ("boom " ++ toString n)

/-- Parse step for the C4 witness, scenario C (never reached). -/
def c4ParseC : String → Except String Nat := fun _ => .ok 0

theorem c4_stage_retry_witness :
    c4GatewayA 1 = .error "gw fail 1" ∧
    c4GatewayB 1 = .ok "1" ∧
    c4GatewayC 1 = .error "boom 1" ∧
    (call_llm_with_parse (stageBody c4GatewayA c4ParseA) 3 = ⟨.ok 7, [2, 4], 3⟩ ∧
     call_llm_with_parse (stageBody c4GatewayB c4ParseB) 3 = ⟨.ok 9, [2, 4], 3⟩ ∧
     call_llm_with_parse (stageBody c4GatewayC c4ParseC) 3 =
       ⟨.error ("Failed after 3 attempts: " ++ ((fun n => "boom " ++ toString n) 3)),
        [2, 4], 3⟩) :=
  ⟨rfl, rfl, rfl,
   c4_stage_retry c4GatewayA c4ParseA "raw ok" 7 "gw fail 1" "gw fail 2"
     c4GatewayB c4ParseB "1" "2" "3" 9 "bad 1" "bad 2"
     c4GatewayC c4ParseC (fun n => "boom " ++ toString n)
     rfl rfl rfl rfl rfl rfl rfl rfl rfl rfl (fun _ => rfl)⟩

/-! ## Response extraction (classifier.py, `Classifier._extract_json`,
lines 394-458).  Each `re.sub` pass is embedded as a left-to-right scanner
over `List Char` with the exact match/replacement semantics of the source
pattern.  Scanners whose recursion is not structural take a fuel argument;
every recursive step consumes at least one input character, so the
`length + 1` fuel supplied by `runPass` never runs out. -/

/-- Single-quote character (spelled via its code point). -/
def sqc : Char := Char.ofNat 39

/-- Backtick character (spelled via its code point). -/
def bt : Char := Char.ofNat 96

/-- Three backticks: a markdown fence delimiter. -/
def tick3 : List Char := [bt, bt, bt]

/-- Python regex `\s` (and the `str.strip` character class) over the ASCII
and Latin-1 range; the inputs treated in this development are ASCII. -/
def isWs (c : Char) : Bool :=
  c == ' ' || c == '\t' || c == '\n' || c == '\r' ||
  c == Char.ofNat 11 || c == Char.ofNat 12 ||
  (decide (28 ≤ c.toNat) && decide (c.toNat ≤ 31)) ||
  c.toNat == 133 || c.toNat == 160

/-- Python regex `\w` over the ASCII range. -/
def isWordChar (c : Char) : Bool :=
  (decide ('a' ≤ c) && decide (c ≤ 'z')) ||
  (decide ('A' ≤ c) && decide (c ≤ 'Z')) ||
  (decide ('0' ≤ c) && decide (c ≤ '9')) || c == '_'

/-- Embeds Python `str.strip()`: drop whitespace from both ends. -/
def pyStrip (s : List Char) : List Char :=
  ((s.dropWhile isWs).reverse.dropWhile isWs).reverse

/-- Scans for the closing fence of the regex
`(?:json)?\s*\n?(.*?)\n?` + three backticks: the lazy group ends at the
first position where three backticks (optionally preceded by one newline,
which the greedy `\n?` then absorbs) begin. -/
def fenceClose : List Char → List Char → Option (List Char)
  | [], _ => none
  | c :: cs, acc =>
    if listStartsWith tick3 (c :: cs) then some acc.reverse
    else if c == '\n' && listStartsWith tick3 cs then some acc.reverse
    else fenceClose cs (c :: acc)

/-- Attempts the fence regex of classifier.py line 404 anchored at the head
of `s`: three backticks, greedy optional `json` tag, greedy `\s*`
(subsuming the following `\n?`, as whitespace cannot hide a backtick),
then the lazy group up to the closing fence. -/
def fenceMatchAt (s : List Char) : Option (List Char) :=
  if listStartsWith tick3 s then
    let r := s.drop 3
    let r := if listStartsWith "json".data r then r.drop 4 else r
    fenceClose (r.dropWhile isWs) []
  else none

/-- Embeds `re.search` of the fence regex: try every start position left to
right and return the first group-1 capture. -/
def findFence : List Char → Option (List Char)
  | [] => none
  | c :: rest =>
    match fenceMatchAt (c :: rest) with
    | some g => some g
    | none => findFence rest

/-- Embeds `re.search(r"\{.*\}", response, re.DOTALL)` (classifier.py
line 409): with a greedy dot-all `.*` this spans from the first opening
brace to the last closing brace after it. -/
def braceSpan (s : List Char) : Option (List Char) :=
  match s.dropWhile (fun c => !(c == '{')) with
  | [] => none
  | t =>
    match t.reverse.dropWhile (fun c => !(c == '}')) with
    | [] => none
    | r => some r.reverse

/-- Embeds `re.sub(r"^\{\s*\{", "{", ...)` (classifier.py line 418). -/
def fixDoubleOpen (s : List Char) : List Char :=
  match s with
  | '{' :: rest =>
    match rest.dropWhile isWs with
    | '{' :: t => '{' :: t
    | _ => s
  | _ => s

/-- Embeds `re.sub(r"\}\s*\}$", "}", ...)` (classifier.py line 420). -/
def fixDoubleClose : List Char → List Char
  | [] => []
  | c :: rest =>
    if c == '}' && rest.dropWhile isWs == ['}'] then ['}']
    else c :: fixDoubleClose rest

/-- Embeds `re.sub(r",\s*([}\]])", r"\1", ...)` (classifier.py line 423):
a comma, optional whitespace and a closing bracket collapse to the
bracket. -/
def fixTrailingCommas : Nat → List Char → List Char
  | 0, s => s
  | _, [] => []
  | fuel + 1, c :: rest =>
    if c == ',' then
      match rest.dropWhile isWs with
      | '}' :: t => '}' :: fixTrailingCommas fuel t
      | ']' :: t => ']' :: fixTrailingCommas fuel t
      | _ => ',' :: fixTrailingCommas fuel rest
    else c :: fixTrailingCommas fuel rest

/-- Embeds `re.sub(r"(\{|,)\s*(\w+)\s*:", r'\1"\2":', ...)` (classifier.py
line 426): a bare identifier key after `{` or `,` is double-quoted; the
matched whitespace is not part of the replacement and is dropped. -/
def quoteKeys : Nat → List Char → List Char
  | 0, s => s
  | _, [] => []
  | fuel + 1, c :: rest =>
    if c == '{' || c == ',' then
      let afterWs := rest.dropWhile isWs
      let word := afterWs.takeWhile isWordChar
      let afterWord := afterWs.dropWhile isWordChar
      match word, afterWord.dropWhile isWs with
      | _ :: _, ':' :: t =>
        c :: '"' :: (word ++ '"' :: ':' :: quoteKeys fuel t)
      | _, _ => c :: quoteKeys fuel rest
    else c :: quoteKeys fuel rest

/-- Embeds `re.sub(r":\s*'([^']*)'", r': "\1"', ...)` (classifier.py
line 430); the replacement normalizes the matched whitespace to one
space. -/
def fixColonSq : Nat → List Char → List Char
  | 0, s => s
  | _, [] => []
  | fuel + 1, c :: rest =>
    if c == ':' then
      match rest.dropWhile isWs with
      | q :: t =>
        if q == sqc then
          let content := t.takeWhile (fun d => !(d == sqc))
          match t.dropWhile (fun d => !(d == sqc)) with
          | _ :: t2 => ':' :: ' ' :: '"' :: (content ++ '"' :: fixColonSq fuel t2)
          | [] => ':' :: fixColonSq fuel rest
        else ':' :: fixColonSq fuel rest
      | [] => ':' :: fixColonSq fuel rest
    else c :: fixColonSq fuel rest

/-- Embeds `re.sub(r"\[\s*'([^']*)'", r'["\1"', ...)` (classifier.py
line 431). -/
def fixBracketSq : Nat → List Char → List Char
  | 0, s => s
  | _, [] => []
  | fuel + 1, c :: rest =>
    if c == '[' then
      match rest.dropWhile isWs with
      | q :: t =>
        if q == sqc then
          let content := t.takeWhile (fun d => !(d == sqc))
          match t.dropWhile (fun d => !(d == sqc)) with
          | _ :: t2 => '[' :: '"' :: (content ++ '"' :: fixBracketSq fuel t2)
          | [] => '[' :: fixBracketSq fuel rest
        else '[' :: fixBracketSq fuel rest
      | [] => '[' :: fixBracketSq fuel rest
    else c :: fixBracketSq fuel rest

/-- Embeds `re.sub(r"',\s*'", '", "', ...)` (classifier.py line 432). -/
def fixSqCommaSq : Nat → List Char → List Char
  | 0, s => s
  | _, [] => []
  | fuel + 1, c :: rest =>
    if c == sqc then
      match rest with
      | ',' :: t =>
        match t.dropWhile isWs with
        | q :: t2 =>
          if q == sqc then '"' :: ',' :: ' ' :: '"' :: fixSqCommaSq fuel t2
          else c :: fixSqCommaSq fuel rest
        | [] => c :: fixSqCommaSq fuel rest
      | _ => c :: fixSqCommaSq fuel rest
    else c :: fixSqCommaSq fuel rest

/-- Embeds `re.sub(r"'\s*\]", '"]', ...)` (classifier.py line 433). -/
def fixSqBracket : Nat → List Char → List Char
  | 0, s => s
  | _, [] => []
  | fuel + 1, c :: rest =>
    if c == sqc then
      match rest.dropWhile isWs with
      | ']' :: t => '"' :: ']' :: fixSqBracket fuel t
      | _ => c :: fixSqBracket fuel rest
    else c :: fixSqBracket fuel rest

/-- Parses one span of the regex `"((?:[^"\\]|\\.)*)"` after its opening
quote: the group extends to the first unescaped double quote; a trailing
lone backslash or a missing closing quote means no match. -/
def spanParse : Nat → List Char → List Char → Option (List Char × List Char)
  | 0, _, _ => none
  | _, [], _ => none
  | fuel + 1, c :: t, acc =>
    if c == '"' then some (acc.reverse, t)
    else if c == '\\' then
      match t with
      | [] => none
      | d :: t2 => spanParse fuel t2 (d :: '\\' :: acc)
    else spanParse fuel t (c :: acc)

/-- Embeds the `fix_string_newlines` replacement body (classifier.py
lines 437-443): raw newline, carriage-return and tab characters inside the
span become their two-character escapes. -/
def fixNl : List Char → List Char
  | [] => []
  | c :: t =>
    (if c == '\n' then ['\\', 'n']
     else if c == '\r' then ['\\', 'r']
     else if c == '\t' then ['\\', 't']
     else [c]) ++ fixNl t

/-- Embeds `re.sub(r'"((?:[^"\\]|\\.)*)"', fix_string_newlines, ...)`
(classifier.py line 446). -/
def spanScan : Nat → List Char → List Char
  | 0, s => s
  | _, [] => []
  | fuel + 1, c :: rest =>
    if c == '"' then
      match spanParse (rest.length + 1) rest [] with
      | some (content, t) => '"' :: (fixNl content ++ '"' :: spanScan fuel t)
      | none => '"' :: spanScan fuel rest
    else c :: spanScan fuel rest

/-- Embeds `re.sub(r"[\x00-\x1f\x7f-\x9f]", " ", ...)` (classifier.py
line 454): control characters become spaces. -/
def stripCtrl (s : List Char) : List Char :=
  s.map (fun c =>
    if decide (c.toNat ≤ 31) || (decide (127 ≤ c.toNat) && decide (c.toNat ≤ 159))
    then ' ' else c)

/-- Embeds `re.sub(r"\s+", " ", ...)` (classifier.py line 456): each
maximal whitespace run becomes a single space. -/
def collapseWs : Nat → List Char → List Char
  | 0, s => s
  | _, [] => []
  | fuel + 1, c :: rest =>
    if isWs c then ' ' :: collapseWs fuel (rest.dropWhile isWs)
    else c :: collapseWs fuel rest

/-! ## A model of Python's `json.loads` (used by `_extract_json`'s final
parse attempt and by `_parse_response`).  The checker follows CPython's
strict decoder: double-quoted strings with the standard escapes and no raw
control characters, numbers `-?(0|[1-9]\d*)(\.\d+)?([eE][+-]?\d+)?`, the
literals `true`/`false`/`null` and (accepted by default) `NaN`,
`Infinity`, `-Infinity`, objects and arrays, whitespace ` \t\n\r`, and a
trailing-garbage check.  Errors carry CPython's message text and character
position. -/

/-- JSON whitespace as accepted by CPython's decoder. -/
def isJsonWs (c : Char) : Bool :=
  c == ' ' || c == '\t' || c == '\n' || c == '\r'

/-- Skips JSON whitespace, tracking the absolute character position. -/
def skipJsonWs : List Char → Nat → List Char × Nat
  | [], p => ([], p)
  | c :: t, p => if isJsonWs c then skipJsonWs t (p + 1) else (c :: t, p)

/-- A decode error: CPython's message text and the character offset it
reports. -/
structure JErr where
  msg : String
  pos : Nat
deriving Repr, DecidableEq

/-- Hexadecimal digit test for `\uXXXX` escapes. -/
def isHexDigit (c : Char) : Bool :=
  c.isDigit || (decide ('a' ≤ c) && decide (c ≤ 'f')) ||
  (decide ('A' ≤ c) && decide (c ≤ 'F'))

/-- Parses a JSON string after its opening quote (at position `p0`);
returns the remainder and position after the closing quote. -/
def jsonStringTail : Nat → List Char → Nat → Nat → Except JErr (List Char × Nat)
  | 0, _, _, p0 => .error ⟨"Unterminated string starting at", p0⟩
  | _, [], _, p0 => .error ⟨"Unterminated string starting at", p0⟩
  | fuel + 1, c :: t, p, p0 =>
    if c == '"' then .ok (t, p + 1)
    else if c == '\\' then
      match t with
      | [] => .error ⟨"Unterminated string starting at", p0⟩
      | d :: t2 =>
        if d == '"' || d == '\\' || d == '/' || d == 'b' || d == 'f' ||
            d == 'n' || d == 'r' || d == 't' then
          jsonStringTail fuel t2 (p + 2) p0
        else if d == 'u' then
          match t2 with
          | h1 :: h2 :: h3 :: h4 :: t3 =>
            if isHexDigit h1 && isHexDigit h2 && isHexDigit h3 && isHexDigit h4 then
              jsonStringTail fuel t3 (p + 6) p0
            else .error ⟨"Invalid \\uXXXX escape", p + 1⟩
          | _ => .error ⟨"Invalid \\uXXXX escape", p + 1⟩
        else .error ⟨"Invalid \\escape", p⟩
    else if decide (c.toNat < 32) then
      .error ⟨"Invalid control character at", p⟩
    else jsonStringTail fuel t (p + 1) p0

/-- Optional fraction and exponent after the integer part of a number. -/
def jsonNumTail (s : List Char) (p : Nat) : List Char × Nat :=
  let fr : List Char × Nat :=
    match s with
    | '.' :: t =>
      let ds := t.takeWhile Char.isDigit
      if ds.isEmpty then (s, p) else (t.dropWhile Char.isDigit, p + 1 + ds.length)
    | _ => (s, p)
  match fr.1 with
  | c :: t =>
    if c == 'e' || c == 'E' then
      let so : List Char × Nat :=
        match t with
        | d :: t2 => if d == '+' || d == '-' then (t2, 1) else (t, 0)
        | [] => (t, 0)
      let ds := so.1.takeWhile Char.isDigit
      if ds.isEmpty then fr
      else (so.1.dropWhile Char.isDigit, fr.2 + 1 + so.2 + ds.length)
    else fr
  | [] => fr

/-- Parses a JSON number (CPython's `NUMBER_RE`): an optional minus, then
`0` or a nonzero-led digit run, then optional fraction and exponent. -/
def jsonNumber (s : List Char) (p : Nat) : Except JErr (List Char × Nat) :=
  let st : List Char × Nat :=
    match s with
    | c :: t => if c == '-' then (t, p + 1) else (s, p)
    | [] => (s, p)
  match st.1 with
  | c :: t =>
    if c == '0' then .ok (jsonNumTail t (st.2 + 1))
    else if c.isDigit then
      let ds := t.takeWhile Char.isDigit
      .ok (jsonNumTail (t.dropWhile Char.isDigit) (st.2 + 1 + ds.length))
    else .error ⟨"Expecting value", p⟩
  | [] => .error ⟨"Expecting value", p⟩

/-- Parser mode for the single fueled decoder `jsonRun`: which production
is being parsed (for a key, the position of its opening quote). -/
inductive JMode where
  | value
  | objBody
  | objPair (pq : Nat)
  | objAfter
  | arrBody
  | arrAfter
deriving Repr

/-- Message reported when the decoder runs out of fuel in a given mode
(never reached with the fuel supplied by `jsonDecode`). -/
def jmodeFailMsg : JMode → String
  | .value => "Expecting value"
  | .objBody => "Expecting property name enclosed in double quotes"
  | .objPair _ => "Expecting value"
  | .objAfter => "Expecting \x27,\x27 delimiter"
  | .arrBody => "Expecting value"
  | .arrAfter => "Expecting \x27,\x27 delimiter"

/-- The decoder: one fueled, structurally recursive function covering all
productions.  `.value` parses one JSON value; `.objBody` the inside of an
object right after `\x7b`; `.objPair pq` a key (opening quote at `pq`
already consumed), its colon and value; `.objAfter` the `,`/`\x7d`
continuation of an object; `.arrBody` the inside of an array right after
`[`; `.arrAfter` the `,`/`]` continuation of an array. -/
def jsonRun : Nat → JMode → List Char → Nat → Except JErr (List Char × Nat)
  | 0, m, _, p => .error ⟨jmodeFailMsg m, p⟩
  | fuel + 1, .value, s, p =>
    match s with
    | [] => .error ⟨"Expecting value", p⟩
    | '{' :: t => jsonRun fuel .objBody t (p + 1)
    | '[' :: t => jsonRun fuel .arrBody t (p + 1)
    | '"' :: t => jsonStringTail (t.length + 1) t (p + 1) p
    | c :: t =>
      if c == 't' then
        if listStartsWith "rue".data t then .ok (t.drop 3, p + 4)
        else .error ⟨"Expecting value", p⟩
      else if c == 'f' then
        if listStartsWith "alse".data t then .ok (t.drop 4, p + 5)
        else .error ⟨"Expecting value", p⟩
      else if c == 'n' then
        if listStartsWith "ull".data t then .ok (t.drop 3, p + 4)
        else .error ⟨"Expecting value", p⟩
      else if c == 'N' then
        if listStartsWith "aN".data t then .ok (t.drop 2, p + 3)
        else .error ⟨"Expecting value", p⟩
      else if c == 'I' then
        if listStartsWith "nfinity".data t then .ok (t.drop 7, p + 8)
        else .error ⟨"Expecting value", p⟩
      else if c == '-' && listStartsWith "Infinity".data t then
        .ok (t.drop 8, p + 9)
      else jsonNumber (c :: t) p
  | fuel + 1, .objBody, s, p =>
    let sp := skipJsonWs s p
    match sp.1 with
    | '}' :: t => .ok (t, sp.2 + 1)
    | '"' :: t => jsonRun fuel (.objPair sp.2) t (sp.2 + 1)
    | _ => .error ⟨"Expecting property name enclosed in double quotes", sp.2⟩
  | fuel + 1, .objPair pq, s, p =>
    match jsonStringTail (s.length + 1) s p pq with
    | .error e => .error e
    | .ok (s1, p1) =>
      let sp := skipJsonWs s1 p1
      match sp.1 with
      | ':' :: t =>
        let sp2 := skipJsonWs t (sp.2 + 1)
        match jsonRun fuel .value sp2.1 sp2.2 with
        | .error e => .error e
        | .ok (s2, p2) => jsonRun fuel .objAfter s2 p2
      | _ => .error ⟨"Expecting \x27:\x27 delimiter", sp.2⟩
  | fuel + 1, .objAfter, s, p =>
    let sp := skipJsonWs s p
    match sp.1 with
    | '}' :: t => .ok (t, sp.2 + 1)
    | ',' :: t =>
      let sp2 := skipJsonWs t (sp.2 + 1)
      match sp2.1 with
      | '"' :: t2 => jsonRun fuel (.objPair sp2.2) t2 (sp2.2 + 1)
      | _ => .error ⟨"Expecting property name enclosed in double quotes", sp2.2⟩
    | _ => .error ⟨"Expecting \x27,\x27 delimiter", sp.2⟩
  | fuel + 1, .arrBody, s, p =>
    let sp := skipJsonWs s p
    match sp.1 with
    | ']' :: t => .ok (t, sp.2 + 1)
    | _ =>
      match jsonRun fuel .value sp.1 sp.2 with
      | .error e => .error e
      | .ok (s1, p1) => jsonRun fuel .arrAfter s1 p1
  | fuel + 1, .arrAfter, s, p =>
    let sp := skipJsonWs s p
    match sp.1 with
    | ']' :: t => .ok (t, sp.2 + 1)
    | ',' :: t =>
      let sp2 := skipJsonWs t (sp.2 + 1)
      match jsonRun fuel .value sp2.1 sp2.2 with
      | .error e => .error e
      | .ok (s1, p1) => jsonRun fuel .arrAfter s1 p1
    | _ => .error ⟨"Expecting \x27,\x27 delimiter", sp.2⟩

/-- Decodes a whole document like `json.loads`: leading whitespace, one
value, trailing whitespace, then end of input; `none` means success.  The
fuel bounds the mutual-recursion depth; at most two mutual calls happen
per consumed input character, so `4 * length + 16` never runs out. -/
def jsonDecode (s : List Char) : Option JErr :=
  let sp := skipJsonWs s 0
  match jsonRun (4 * s.length + 16) .value sp.1 sp.2 with
  | .error e => some e
  | .ok (rest, p1) =>
    let sp2 := skipJsonWs rest p1
    match sp2.1 with
    | [] => none
    | _ => some ⟨"Extra data", sp2.2⟩

/-- True when `json.loads` would succeed on the document. -/
def jsonParses (s : List Char) : Bool := (jsonDecode s).isNone

/-- Index of the last newline in a character list (helper for CPython's
`colno`). -/
def lastNlIdxAux : List Char → Nat → Option Nat → Option Nat
  | [], _, best => best
  | c :: t, i, best => lastNlIdxAux t (i + 1) (if c == '\n' then some i else best)

/-- Index of the last newline, if any. -/
def lastNlIdx (s : List Char) : Option Nat := lastNlIdxAux s 0 none

/-- CPython's `lineno`: one plus the newlines before the error position. -/
def pyLineno (doc : List Char) (pos : Nat) : Nat :=
  ((doc.take pos).filter (fun c => c == '\n')).length + 1

/-- CPython's `colno`: `pos - doc.rfind('\n', 0, pos)`. -/
def pyColno (doc : List Char) (pos : Nat) : Nat :=
  match lastNlIdx (doc.take pos) with
  | some i => pos - i
  | none => pos + 1

/-- Renders a decode error as CPython's `str(JSONDecodeError)`:
`msg: line L column C (char P)`. -/
def pyFmtErr (doc : List Char) (e : JErr) : String :=
  e.msg ++ ": line " ++ toString (pyLineno doc e.pos) ++ " column " ++
    toString (pyColno doc e.pos) ++ " (char " ++ toString e.pos ++ ")"

/-- Runs a fueled scanner with fuel `length + 1`, which suffices since
every recursive step consumes at least one input character. -/
def runPass (f : Nat → List Char → List Char) (s : List Char) : List Char :=
  f (s.length + 1) s

/-- Embeds `Classifier._extract_json` (classifier.py lines 394-458): fence
or brace-span extraction, strip, doubled-brace collapse, trailing-comma
removal, bare-key quoting, the four single-quote normalization passes, the
in-string newline re-escaping pass, and — only if the result still fails to
parse — control-character stripping and whitespace collapsing. -/
def extract_json (response : String) : String :=
  let s0 := response.data
  let s1 :=
    match findFence s0 with
    | some g => g
    | none => (braceSpan s0).getD s0
  let s2 := pyStrip s1
  let s3 := fixDoubleOpen s2
  let s4 := fixDoubleClose s3
  let s5 := runPass fixTrailingCommas s4
  let s6 := runPass quoteKeys s5
  let s7 := runPass fixColonSq s6
  let s8 := runPass fixBracketSq s7
  let s9 := runPass fixSqCommaSq s8
  let s10 := runPass fixSqBracket s9
  let s11 := runPass spanScan s10
  let s12 := if jsonParses s11 then s11 else runPass collapseWs (stripCtrl s11)
  String.mk s12

/-- Embeds the failure path of `Classifier._parse_response` (classifier.py
lines 386-392) for the case where `json.loads` rejects the extracted
candidate: the raised `ClassifierError` carries the message
`"Failed to parse LLM response: "` followed by the decoder's own message
(`model_validate` failures are wrapped by the same template and are not
needed here).  Returns `none` when the candidate parses. -/
def parse_response_failure (response : String) : Option String :=
  let candidate := extract_json response
  match jsonDecode candidate.data with
  | some e => some ("Failed to parse LLM response: " ++ pyFmtErr candidate.data e)
  | none => none

/-! ## Claim theorems: extraction and parse-failure reporting -/

set_option maxHeartbeats 2000000 in
/-- Claim C6 counterexample: the response `{tags: ['a', 'b']}` deviates
from the JSON object `{"tags": ["a", "b"]}` (which parses, third conjunct)
only by a bare identifier key and single-quoted list items, yet extraction
yields `{"tags": ["a", 'b"]}` (the list-item pass rewrites only the first
item's quotes plus the quote before `]`), which does not parse. -/
theorem c6_extract_counterexample :
    extract_json "\x7btags: [\x27a\x27, \x27b\x27]\x7d" =
      "\x7b\"tags\": [\"a\", \x27b\"]\x7d" ∧
    jsonParses (extract_json "\x7btags: [\x27a\x27, \x27b\x27]\x7d").data = false ∧
    jsonParses "\x7b\"tags\": [\"a\", \"b\"]\x7d".data = true := by
  refine ⟨?_, ?_, ?_⟩ <;> rfl

set_option maxHeartbeats 2000000 in
/-- Claim C6 amended: extraction does recover a parseable candidate from a
response combining all three documented deviations — a trailing comma
before the closing brace, bare identifier keys, and single-quoted string
values and a single-quoted (single-item) list — exhibited on a
representative fenced response; the universal form of the claim fails on
lists of two or more single-quoted items (see the counterexample). -/
theorem c6_extract_amended_representative :
    jsonParses (extract_json ("Here is the result:\n```json\n\x7bcollections: [\x27ML / Deep Learning\x27], tags: [], confidence: 0.9, reasoning: \x27clear\x27,\x7d\n```")).data = true := by
  rfl

set_option maxHeartbeats 2000000 in
/-- Claim C7 counterexample: in `{"a": "note: 'x'"}` every single quote
sits inside an already-double-quoted string value (the input parses as
JSON, first conjunct), yet the value-position pass rewrites the span
`: 'x'` inside that string, producing `{"a": "note: "x""}` with no
apostrophe left. -/
theorem c7_quote_scope_counterexample :
    jsonParses "\x7b\"a\": \"note: \x27x\x27\"\x7d".data = true ∧
    extract_json "\x7b\"a\": \"note: \x27x\x27\"\x7d" =
      "\x7b\"a\": \"note: \"x\"\"\x7d" ∧
    containsSub [sqc] (extract_json "\x7b\"a\": \"note: \x27x\x27\"\x7d").data = false := by
  refine ⟨?_, ?_, ?_⟩ <;> rfl

set_option maxHeartbeats 2000000 in
/-- Claim C7 amended: the single-quote normalization is positional, not
global, so apostrophes inside double-quoted values survive whenever they do
not stand at a value or list-item position matched by the passes (after a
colon or `[` plus whitespace, or before a `,` or `]`): the document
`{"a": "it's a cat's toy"}` is returned verbatim.  When such a position
does occur inside a double-quoted value the pass fires anyway (see the
counterexample). -/
theorem c7_apostrophes_preserved_representative :
    extract_json "\x7b\"a\": \"it\x27s a cat\x27s toy\"\x7d" =
      "\x7b\"a\": \"it\x27s a cat\x27s toy\"\x7d" := by
  rfl

set_option maxHeartbeats 2000000 in
/-- Claim C9 counterexample: for the raw response `no json here` (which is
its own extraction candidate), the raised failure message is exactly the
wrapped decoder message, which contains neither the candidate nor the raw
response text. -/
theorem c9_failure_message_counterexample :
    parse_response_failure "no json here" =
      some "Failed to parse LLM response: Expecting value: line 1 column 1 (char 0)" ∧
    containsSub "no json here".data
      "Failed to parse LLM response: Expecting value: line 1 column 1 (char 0)".data
      = false := by
  refine ⟨?_, ?_⟩ <;> rfl

/-- Claim C9 amended: when the extracted candidate fails to decode, the
raised `ClassifierError` carries exactly the template
`"Failed to parse LLM response: "` followed by the decoder's own message —
not the combination of the candidate and the raw response text. -/
theorem c9_failure_message_is_wrapped_decoder_error (response : String)
    (e : JErr) (h : jsonDecode (extract_json response).data = some e) :
    parse_response_failure response =
      some ("Failed to parse LLM response: " ++
        pyFmtErr (extract_json response).data e) := by
  show (match jsonDecode (extract_json response).data with
    | some e' =>
        some ("Failed to parse LLM response: " ++
          pyFmtErr (extract_json response).data e')
    | none => none) = _
  rw [h]

set_option maxHeartbeats 2000000 in
theorem c9_failure_message_witness :
    jsonDecode (extract_json "no json here").data = some ⟨"Expecting value", 0⟩ ∧
    parse_response_failure "no json here" =
      some ("Failed to parse LLM response: " ++
        pyFmtErr (extract_json "no json here").data ⟨"Expecting value", 0⟩) :=
  ⟨by rfl, c9_failure_message_is_wrapped_decoder_error "no json here"
    ⟨"Expecting value", 0⟩ (by rfl)⟩

/-! ## Gateway request body (classifier.py, `Classifier._call_llm_once`,
lines 298-332) and its configuration records (config.py). -/

/-- Embeds `config.ProviderRouting`: `allow_fallbacks` is a plain `bool`
with pydantic default `True` (never `None`); the other fields are
optional with default `None`. -/
structure ProviderRouting where
  order : Option (List String)
  allow_fallbacks : Bool
  sort : Option String
  quantizations : Option (List String)
  require_parameters : Option Bool
deriving Repr, DecidableEq

/-- Embeds `config.LLMConfig` (fields relevant to the gateway). -/
structure LLMConfig where
  provider : String
  api_key : String
  model : String
  max_tokens : Nat
  temperature : ℚ
  max_retries : Nat
  routing : Option ProviderRouting
deriving Repr, DecidableEq

/-- The `provider_config` dictionary of classifier.py lines 312-329: a
field is `none` exactly when the corresponding key is absent. -/
structure ProviderConfig where
  order : Option (List String) := none
  allow_fallbacks : Option Bool := none
  sort : Option String := none
  quantizations : Option (List String) := none
  require_parameters : Option Bool := none
deriving Repr, DecidableEq

/-- Python truthiness guard `if x:` for an optional value with an
emptiness test: `None` and empty values are falsy. -/
def pyTruthy {α : Type} (isEmptyF : α → Bool) (o : Option α) : Option α :=
  match o with
  | some v => if isEmptyF v then none else some v
  | none => none

/-- Embeds classifier.py lines 312-329: populate `provider_config` from
the routing block when configured (`order`, `sort`, `quantizations` only
when truthy, `allow_fallbacks` always — it is never `None` —,
`require_parameters` when explicitly set), then default
`require_parameters` to `True` when the key is absent. -/
def buildProviderConfig (routing? : Option ProviderRouting) : ProviderConfig :=
  let pc : ProviderConfig :=
    match routing? with
    | none => {}
    | some routing =>
      { order := pyTruthy List.isEmpty routing.order
        allow_fallbacks := some routing.allow_fallbacks
        sort := pyTruthy String.isEmpty routing.sort
        quantizations := pyTruthy List.isEmpty routing.quantizations
        require_parameters := routing.require_parameters }
  if pc.require_parameters = none then { pc with require_parameters := some true }
  else pc

/-- The request body of classifier.py lines 303-332: messages are
(role, content) pairs; `response_format` holds the `type` value; the
`provider` key is present iff `provider_config` is non-empty. -/
structure RequestPayload where
  model : String
  messages : List (String × String)
  max_tokens : Nat
  temperature : ℚ
  response_format : String
  provider : Option ProviderConfig
deriving Repr, DecidableEq

/-- Embeds the payload construction of `Classifier._call_llm_once`. -/
def buildPayload (cfg : LLMConfig) (prompt : String) : RequestPayload :=
  let pc := buildProviderConfig cfg.routing
  { model := cfg.model
    messages := [("user", prompt)]
    max_tokens := cfg.max_tokens
    temperature := cfg.temperature
    response_format := "json_object"
    provider := if pc = {} then none else some pc }

theorem pyTruthy_eq_filter {α : Type} (f : α → Bool) (o : Option α) :
    pyTruthy f o = o.filter (fun v => !f v) := by
  cases o with
  | none => rfl
  | some v => by_cases h : f v <;> simp [pyTruthy, Option.filter, h]

theorem buildProviderConfig_require (routing? : Option ProviderRouting) :
    (buildProviderConfig routing?).require_parameters =
      some ((routing?.bind ProviderRouting.require_parameters).getD true) := by
  cases routing? with
  | none => rfl
  | some r =>
    cases hq : r.require_parameters with
    | none => simp [buildProviderConfig, hq]
    | some b => simp [buildProviderConfig, hq]

/-- A config with no routing block, for the C8 counterexample. -/
def c8NoRoutingConfig : LLMConfig :=
  { provider := "openrouter", api_key := "k", model := "m", max_tokens := 2000,
    temperature := 3 / 10, max_retries := 3, routing := none }

/-- Claim C8 counterexample: with no provider-routing options configured,
the request body still contains the provider routing object — the forced
`require_parameters = True` default (classifier.py lines 328-329) makes
`provider_config` non-empty, so `payload["provider"]` is always set
(lines 331-332), contradicting "only when provider-routing options are
configured". -/
theorem c8_provider_always_sent_counterexample :
    c8NoRoutingConfig.routing = none ∧
    (buildPayload c8NoRoutingConfig "p").provider =
      some { require_parameters := some true } :=
  ⟨rfl, by rfl⟩

/-- Claim C8 amended: the request body always contains the provider
routing object; `require_parameters` defaults to true whenever it is not
explicitly configured (routing absent, or present without the flag); and
when routing is configured, a non-empty `order`, the `allow_fallbacks`
flag (always present), a non-empty `sort`, a non-empty `quantizations`
and an explicit `require_parameters` are carried into it. -/
theorem c8_provider_routing_contents (cfg : LLMConfig) (prompt : String) :
    (buildPayload cfg prompt).provider = some (buildProviderConfig cfg.routing) ∧
    (buildProviderConfig cfg.routing).require_parameters =
      some ((cfg.routing.bind ProviderRouting.require_parameters).getD true) ∧
    ∀ r : ProviderRouting,
      buildProviderConfig (some r) =
        { order := r.order.filter (fun l => !l.isEmpty)
          allow_fallbacks := some r.allow_fallbacks
          sort := r.sort.filter (fun v => !v.isEmpty)
          quantizations := r.quantizations.filter (fun l => !l.isEmpty)
          require_parameters := some (r.require_parameters.getD true) } := by
  refine ⟨?_, buildProviderConfig_require cfg.routing, ?_⟩
  · have h := buildProviderConfig_require cfg.routing
    have hne : ¬ buildProviderConfig cfg.routing = ({} : ProviderConfig) := by
      intro he
      rw [he] at h
      cases h
    simp [buildPayload, hne]
  · intro r
    cases hq : r.require_parameters with
    | none =>
      simp [buildProviderConfig, hq, pyTruthy_eq_filter]
    | some b =>
      simp [buildProviderConfig, hq, pyTruthy_eq_filter]
